import Mathlib

/-!
Verification development for the smart-home command dispatcher
(`smart_home.py`).  The Python action handler `handle_command` is embedded
shallowly: each parsed command is a record of optional string fields (the
source uses free-form dicts read with `.get`), the device registry is a
record of the three device states, and the handler is a pure function from
a registry and a command list to the new registry plus the list of response
messages (the source mutates `home` in place and joins responses with
newlines).  The `try/except` around each request is modelled by an
`Except`-valued request body whose `.error` values represent uncaught
Python exceptions; the loop-level handler converts them to an error
response.
-/

namespace SmartHomeSpec

/-- `FanSpeed(str, Enum)` of the source: `OFF/LOW/MEDIUM/HIGH`. -/
inductive FanSpeed
  | off
  | low
  | medium
  | high
deriving DecidableEq

/-- The `.value` of each `FanSpeed` member in the source. -/
def FanSpeed.value : FanSpeed → String
  | .off => "off"
  | .low => "low"
  | .medium => "medium"
  | .high => "high"

/-- `@dataclass Light: state: bool = False`. -/
structure Light where
  state : Bool
deriving DecidableEq

/-- `@dataclass Fan: speed: FanSpeed = FanSpeed.OFF`. -/
structure Fan where
  speed : FanSpeed
deriving DecidableEq

/-- `@dataclass Thermostat: temperature: int = 22, state: bool = False`. -/
structure Thermostat where
  temperature : Int
  state : Bool
deriving DecidableEq

/-- The `SmartHome` registry: a light, a fan and a thermostat. -/
structure SmartHome where
  light : Light
  fan : Fan
  thermostat : Thermostat
deriving DecidableEq

/-- `SmartHome.__init__`: light OFF, fan OFF, thermostat 22°C and OFF. -/
def SmartHome.init : SmartHome := ⟨⟨false⟩, ⟨.off⟩, ⟨22, false⟩⟩

/-- `SmartHome.get_status`: the status dict in insertion order
(`light`, `fan`, `thermostat`). -/
def SmartHome.get_status (home : SmartHome) : List (String × String) :=
  [("light", if home.light.state then "ON" else "OFF"),
   ("fan", home.fan.speed.value),
   ("thermostat",
     toString home.thermostat.temperature ++ "°C ("
       ++ (if home.thermostat.state then "ON" else "OFF") ++ ")")]

/-- The response built for a `get_status` request:
`"\n".join(f"{k}: {v}" for k, v in home.get_status().items())`. -/
def statusText (home : SmartHome) : String :=
  String.intercalate "\n" ((home.get_status).map fun kv => kv.1 ++ ": " ++ kv.2)

/-- A parsed command dict.  The source reads the keys `action`, `device`,
`param` and (for unrecognized commands, written but never read) `command`
with `.get`, so each field is optional.  Values are strings for a
well-formed request. -/
structure Req where
  action : Option String
  device : Option String
  param : Option String
  command : Option String
deriving DecidableEq

/-- ASCII lower-casing of one character, as Python `str.lower` acts on the
ASCII strings the system deals in. -/
def pyCharLower (c : Char) : Char :=
  if 'A' ≤ c ∧ c ≤ 'Z' then Char.ofNat (c.toNat + 32) else c

/-- ASCII upper-casing of one character (Python `str.upper` on ASCII). -/
def pyCharUpper (c : Char) : Char :=
  if 'a' ≤ c ∧ c ≤ 'z' then Char.ofNat (c.toNat - 32) else c

/-- Python `str.lower` on ASCII strings. -/
def pyLower (s : String) : String := ⟨s.data.map pyCharLower⟩

/-- Python `str.upper` on ASCII strings. -/
def pyUpper (s : String) : String := ⟨s.data.map pyCharUpper⟩

/-- Python truthiness test `not device` for an optional string:
true when the key is absent or the string is empty. -/
def pyFalsy : Option String → Bool
  | none => true
  | some s => s.data.isEmpty

/-- Python `str.isdigit` restricted to ASCII strings (the inputs the
system deals in): nonempty and every character a decimal digit. -/
def pyIsDigit (s : String) : Bool :=
  !s.data.isEmpty && s.data.all (fun c => c.isDigit)

/-- Decimal value of a digit string, as `int(s)` computes it. -/
def parseVal (l : List Char) : Nat :=
  l.foldl (fun n c => 10 * n + (c.toNat - 48)) 0

/-- Python `int(s)` on an all-digit string. -/
def pyInt (s : String) : Int := (parseVal s.data : Nat)

/-- Python `float(s)`: may raise `ValueError`.  The handler only calls it
behind an `isdigit` guard, where it returns the integer value; other
strings are mapped to the raised error (an under-approximation of
`float`'s full domain that is exact at every reachable call site). -/
def pyFloat (s : String) : Except String Int :=
  if pyIsDigit s then .ok (pyInt s)
  else .error "could not convert string to float"

/-- `FanSpeed.__members__` lookup by member name. -/
def fanSpeedOfName : String → Option FanSpeed
  | "OFF" => some .off
  | "LOW" => some .low
  | "MEDIUM" => some .medium
  | "HIGH" => some .high
  | _ => none

/-- `FanSpeed[name]`: raises `KeyError` when the name is not a member. -/
def fanSpeedGetItem (s : String) : Except String FanSpeed :=
  match fanSpeedOfName s with
  | some sp => .ok sp
  | none => .error ("KeyError: " ++ s)

/-- The `device == "light"` branch of `handle_command`: `turn_on` and
`turn_off` are handled, any other action falls through the `elif` chain
appending no response. -/
def lightAct (home : SmartHome) (action : Option String) :
    SmartHome × List String :=
  if action = some "turn_on" then ({home with light := ⟨true⟩}, ["Light is now ON"])
  else if action = some "turn_off" then ({home with light := ⟨false⟩}, ["Light is now OFF"])
  else (home, [])

/-- The `device == "fan"` branch: `set` looks the lowered parameter up in
`FanSpeed` (the `KeyError` is caught by the inner `try/except`),
`turn_on` defaults to LOW, `turn_off` sets OFF, anything else falls
through silently. -/
def fanAct (home : SmartHome) (action param : Option String) :
    SmartHome × List String :=
  if action = some "set" then
    let speed_str := pyLower (param.getD "")
    match fanSpeedGetItem (pyUpper speed_str) with
    | .ok sp => ({home with fan := ⟨sp⟩}, ["Fan speed set to " ++ speed_str])
    | .error _ =>
        (home, ["Error: Invalid fan speed '" ++ speed_str
          ++ "'. Valid speeds are: OFF, LOW, MEDIUM, HIGH"])
  else if action = some "turn_on" then
    ({home with fan := ⟨.low⟩}, ["Fan is now ON (set to low)"])
  else if action = some "turn_off" then
    ({home with fan := ⟨.off⟩}, ["Fan is now OFF"])
  else (home, [])

/-- The `device == "thermostat"` branch: `set` checks `isdigit`, converts
with `float` (whose potential exception would escape to the outer
`try/except`), range-checks `18 <= t <= 30` and on success stores
`int(param)` and turns the thermostat on; other actions fall through
silently. -/
def thermoAct (home : SmartHome) (action param : Option String) :
    Except String (SmartHome × List String) :=
  if action = some "set" then
    match param with
    | some temp_str =>
      if pyIsDigit temp_str then
        match pyFloat temp_str with
        | .error e => .error e
        | .ok temp_float =>
          if 18 ≤ temp_float ∧ temp_float ≤ 30 then
            .ok ({home with thermostat := ⟨pyInt temp_str, true⟩},
              ["Thermostat set to " ++ toString (pyInt temp_str) ++ "°C"])
          else .ok (home, ["Error: Temperature Out Of Range."])
      else .ok (home, ["Error: Invalid temperature value."])
    | none => .ok (home, ["Error: Invalid temperature value."])
  else .ok (home, [])

/-- The body of the per-request `try` block in `handle_command`: a missing
or empty device with a non-status action is rejected up front; then the
`if/elif` chain on action and device.  A device name other than the three
known ones matches no branch and appends no response.  An `.error` result
models an exception escaping the body. -/
def handleOneBody (home : SmartHome) (parsed : Req) :
    Except String (SmartHome × List String) :=
  if pyFalsy parsed.device = true ∧ parsed.action ≠ some "get_status" then
    .ok (home, ["Error: Could not understand the command."])
  else if parsed.action = some "get_status" then
    .ok (home, [statusText home])
  else if parsed.device = some "light" then
    .ok (lightAct home parsed.action)
  else if parsed.device = some "fan" then
    .ok (fanAct home parsed.action parsed.param)
  else if parsed.device = some "thermostat" then
    thermoAct home parsed.action parsed.param
  else .ok (home, [])

/-- One iteration of the `handle_command` loop: the `except Exception`
clause turns an escaped exception into an `Error processing command`
response and leaves the registry as the body left it (here: unchanged,
since nothing was applied). -/
def handleOne (home : SmartHome) (parsed : Req) : SmartHome × List String :=
  match handleOneBody home parsed with
  | .ok res => res
  | .error e => (home, ["Error processing command: " ++ e])

/-- `handle_command`: fold the requests in order, accumulating responses. -/
def handle_command : SmartHome → List Req → SmartHome × List String
  | home, [] => (home, [])
  | home, parsed :: rest =>
    let r := handleOne home parsed
    let r' := handle_command r.1 rest
    (r'.1, r.2 ++ r'.2)

/-- The string `handle_command` returns: `'\n'.join(responses)`. -/
def handle_command_str (home : SmartHome) (cmds : List Req) : String :=
  String.intercalate "\n" (handle_command home cmds).2

/-- The per-request response lists, in request order, threading the
registry state exactly as `handle_command` does. -/
def perRequest : SmartHome → List Req → List (List String)
  | _, [] => []
  | home, parsed :: rest =>
    (handleOne home parsed).2 :: perRequest (handleOne home parsed).1 rest

/-- An outcome message is a failure outcome exactly when it carries the
source's `Error` marker (every failure message in `handle_command` starts
with `Error`, no success message does). -/
def isErrOut (m : String) : Bool :=
  match m.data with
  | 'E' :: 'r' :: 'r' :: 'o' :: 'r' :: _ => true
  | _ => false

/-- A request is successful in a given state when it produced a response
that is not a failure outcome. -/
def isSuccessAt (home : SmartHome) (parsed : Req) : Bool :=
  (handleOne home parsed).2.any (fun m => !isErrOut m)

/-- Modelled from the spec: the state obtained by applying, in order, only
the successful requests of a batch (the reference state for the
best-effort batch semantics). -/
def applySuccessful : SmartHome → List Req → SmartHome
  | home, [] => home
  | home, parsed :: rest =>
    applySuccessful (if isSuccessAt home parsed then (handleOne home parsed).1 else home) rest

/-- Decimal digit character, for rendering integers the way `str` does. -/
def digitChar : Nat → Char
  | 0 => '0'
  | 1 => '1'
  | 2 => '2'
  | 3 => '3'
  | 4 => '4'
  | 5 => '5'
  | 6 => '6'
  | 7 => '7'
  | 8 => '8'
  | _ => '9'

/-- Fuel-driven canonical decimal rendering of a natural number
(most significant digit first); `fuel` bounds the recursion depth. -/
def natReprAux : Nat → Nat → List Char
  | 0, _ => []
  | fuel + 1, n =>
    if n < 10 then [digitChar n]
    else natReprAux fuel (n / 10) ++ [digitChar (n % 10)]

/-- Canonical decimal rendering of a natural number. -/
def natRepr (n : Nat) : List Char := natReprAux (n + 1) n

/-- Python `str(t)` for an integer: canonical decimal, a leading `-` for
negative values. -/
def pyStr (t : Int) : String :=
  if t < 0 then ⟨'-' :: natRepr (-t).toNat⟩ else ⟨natRepr t.toNat⟩

/-- `a` is a leading block of `b`. -/
def listIsPref : List Char → List Char → Bool
  | [], _ => true
  | _ :: _, [] => false
  | a :: as, b :: bs => a = b && listIsPref as bs

/-- `needle` occurs contiguously inside `haystack`. -/
def containsSub (needle : List Char) : List Char → Bool
  | [] => listIsPref needle []
  | b :: bs => listIsPref needle (b :: bs) || containsSub needle bs

/-- A thermostat `set` request with the given raw parameter. -/
def thermoSetReq (p : Option String) : Req := ⟨some "set", some "thermostat", p, none⟩

/-- A fan `set` request with the given raw parameter. -/
def fanSetReq (p : Option String) : Req := ⟨some "set", some "fan", p, none⟩

/-! ### Reduction lemmas for the request handler -/

@[simp]
lemma pyFalsy_light : pyFalsy (some "light") = false := rfl

@[simp]
lemma pyFalsy_fan : pyFalsy (some "fan") = false := rfl

@[simp]
lemma pyFalsy_thermostat : pyFalsy (some "thermostat") = false := rfl

/-- Closed form of the handler on a thermostat `set` request with a
missing parameter. -/
lemma handleOne_thermoSet_none (h : SmartHome) :
    handleOne h (thermoSetReq none) = (h, ["Error: Invalid temperature value."]) := rfl

/-- Closed form of the handler on a thermostat `set` request with a
present parameter. -/
lemma handleOne_thermoSet (h : SmartHome) (s : String) :
    handleOne h (thermoSetReq (some s)) =
      if pyIsDigit s then
        if 18 ≤ pyInt s ∧ pyInt s ≤ 30 then
          ({h with thermostat := ⟨pyInt s, true⟩},
           ["Thermostat set to " ++ toString (pyInt s) ++ "°C"])
        else (h, ["Error: Temperature Out Of Range."])
      else (h, ["Error: Invalid temperature value."]) := by
  by_cases hd : pyIsDigit s = true
  · by_cases hr : 18 ≤ pyInt s ∧ pyInt s ≤ 30
    · simp [handleOne, handleOneBody, thermoSetReq, thermoAct, pyFloat, hd, hr]
    · simp [handleOne, handleOneBody, thermoSetReq, thermoAct, pyFloat, hd, hr]
  · simp [handleOne, handleOneBody, thermoSetReq, thermoAct, pyFloat, hd]

/-- Closed form of the handler on a fan `set` request. -/
lemma handleOne_fanSet (h : SmartHome) (p : Option String) :
    handleOne h (fanSetReq p) =
      match fanSpeedOfName (pyUpper (pyLower (p.getD ""))) with
      | some sp => ({h with fan := ⟨sp⟩}, ["Fan speed set to " ++ pyLower (p.getD "")])
      | none =>
          (h, ["Error: Invalid fan speed '" ++ pyLower (p.getD "")
            ++ "'. Valid speeds are: OFF, LOW, MEDIUM, HIGH"]) := by
  cases hm : fanSpeedOfName (pyUpper (pyLower (p.getD ""))) with
  | some sp => simp [handleOne, handleOneBody, fanSetReq, fanAct, fanSpeedGetItem, hm]
  | none => simp [handleOne, handleOneBody, fanSetReq, fanAct, fanSpeedGetItem, hm]

/-- Any request tagged `get_status` reads the registry and changes nothing. -/
lemma handleOne_getStatus (h : SmartHome) (r : Req)
    (ha : r.action = some "get_status") : handleOne h r = (h, [statusText h]) := by
  unfold handleOne handleOneBody
  rw [ha]
  simp

/-- A missing or empty device on a non-status action short-circuits to the
fixed error response. -/
lemma handleOne_malformed (h : SmartHome) (r : Req)
    (hd : pyFalsy r.device = true) (ha : r.action ≠ some "get_status") :
    handleOne h r = (h, ["Error: Could not understand the command."]) := by
  unfold handleOne handleOneBody
  rw [if_pos ⟨hd, ha⟩]

/-- With device `light` and a non-status action the handler runs the light
branch. -/
lemma handleOne_lightDev (h : SmartHome) (a p c : Option String)
    (ha : a ≠ some "get_status") :
    handleOne h ⟨a, some "light", p, c⟩ = lightAct h a := by
  unfold handleOne handleOneBody
  simp [ha]

/-- With device `fan` and a non-status action the handler runs the fan
branch. -/
lemma handleOne_fanDev (h : SmartHome) (a p c : Option String)
    (ha : a ≠ some "get_status") :
    handleOne h ⟨a, some "fan", p, c⟩ = fanAct h a p := by
  unfold handleOne handleOneBody
  simp [ha]

/-- Exhaustive shapes of the thermostat branch: it never raises, and it
either leaves the registry alone (with no response or an error response)
or stores an in-range temperature with the thermostat turned on. -/
lemma thermoAct_cases (h : SmartHome) (a p : Option String) :
    thermoAct h a p = .ok (h, [])
  ∨ thermoAct h a p = .ok (h, ["Error: Invalid temperature value."])
  ∨ thermoAct h a p = .ok (h, ["Error: Temperature Out Of Range."])
  ∨ ∃ v : Int, 18 ≤ v ∧ v ≤ 30 ∧
      thermoAct h a p = .ok ({h with thermostat := ⟨v, true⟩},
        ["Thermostat set to " ++ toString v ++ "°C"]) := by
  by_cases hset : a = some "set"
  · cases p with
    | none => simp [thermoAct, hset]
    | some s =>
      by_cases hd : pyIsDigit s = true
      · by_cases hr : 18 ≤ pyInt s ∧ pyInt s ≤ 30
        · exact Or.inr (Or.inr (Or.inr ⟨pyInt s, hr.1, hr.2, by
            simp [thermoAct, hset, pyFloat, hd, hr]⟩))
        · simp [thermoAct, hset, pyFloat, hd, hr]
      · simp [thermoAct, hset, pyFloat, hd]
  · simp [thermoAct, hset]

/-- With device `thermostat` and a non-status action the handler runs the
thermostat branch, whose result (always `ok`) it returns unchanged. -/
lemma handleOne_thermoDev (h : SmartHome) (a p c : Option String)
    (ha : a ≠ some "get_status") (res : SmartHome × List String)
    (hres : thermoAct h a p = .ok res) :
    handleOne h ⟨a, some "thermostat", p, c⟩ = res := by
  unfold handleOne handleOneBody
  simp [ha, hres]

/-- A request naming a truthy device other than the three known ones (and
not asking for status) matches no branch: no mutation, no response. -/
lemma handleOne_otherDev (h : SmartHome) (r : Req)
    (hd : pyFalsy r.device = false) (ha : r.action ≠ some "get_status")
    (hl : r.device ≠ some "light") (hf : r.device ≠ some "fan")
    (ht : r.device ≠ some "thermostat") :
    handleOne h r = (h, []) := by
  unfold handleOne handleOneBody
  simp [hd, ha, hl, hf, ht]

@[simp]
lemma isErrOut_thermoMsg (s : String) : isErrOut ("Thermostat set to " ++ s) = false := rfl

@[simp]
lemma isErrOut_fanSetMsg (s : String) : isErrOut ("Fan speed set to " ++ s) = false := rfl

/-- Exhaustive shapes of one handled request: the registry is unchanged
(and at most one response is emitted), or exactly one device field was
updated together with one non-error response; a thermostat update always
stores an in-range temperature and turns the thermostat on. -/
lemma handleOne_cases (h : SmartHome) (r : Req) :
    ((handleOne h r).1 = h ∧ (handleOne h r).2.length ≤ 1)
  ∨ (∃ b m, handleOne h r = ({h with light := ⟨b⟩}, [m]) ∧ isErrOut m = false)
  ∨ (∃ sp m, handleOne h r = ({h with fan := ⟨sp⟩}, [m]) ∧ isErrOut m = false)
  ∨ (∃ v m, handleOne h r = ({h with thermostat := ⟨v, true⟩}, [m])
      ∧ isErrOut m = false ∧ 18 ≤ v ∧ v ≤ 30) := by
  obtain ⟨a, d, p, c⟩ := r
  by_cases hstat : a = some "get_status"
  · rw [handleOne_getStatus h _ hstat]
    exact Or.inl ⟨rfl, by simp⟩
  · by_cases hmal : pyFalsy d = true
    · rw [handleOne_malformed h _ hmal hstat]
      exact Or.inl ⟨rfl, by simp⟩
    · by_cases hl : d = some "light"
      · subst hl
        rw [handleOne_lightDev h a p c hstat]
        by_cases hon : a = some "turn_on"
        · exact Or.inr (Or.inl ⟨true, "Light is now ON", by simp [lightAct, hon], rfl⟩)
        · by_cases hoff : a = some "turn_off"
          · exact Or.inr (Or.inl ⟨false, "Light is now OFF",
              by simp [lightAct, hon, hoff], rfl⟩)
          · exact Or.inl ⟨by simp [lightAct, hon, hoff], by simp [lightAct, hon, hoff]⟩
      · by_cases hf : d = some "fan"
        · subst hf
          rw [handleOne_fanDev h a p c hstat]
          by_cases hset : a = some "set"
          · cases hm : fanSpeedOfName (pyUpper (pyLower (p.getD ""))) with
            | some sp =>
                exact Or.inr (Or.inr (Or.inl ⟨sp, "Fan speed set to " ++ pyLower (p.getD ""),
                  by simp [fanAct, hset, fanSpeedGetItem, hm], isErrOut_fanSetMsg _⟩))
            | none =>
                exact Or.inl ⟨by simp [fanAct, hset, fanSpeedGetItem, hm],
                  by simp [fanAct, hset, fanSpeedGetItem, hm]⟩
          · by_cases hon : a = some "turn_on"
            · exact Or.inr (Or.inr (Or.inl ⟨.low, "Fan is now ON (set to low)",
                by simp [fanAct, hset, hon], rfl⟩))
            · by_cases hoff : a = some "turn_off"
              · exact Or.inr (Or.inr (Or.inl ⟨.off, "Fan is now OFF",
                  by simp [fanAct, hset, hon, hoff], rfl⟩))
              · exact Or.inl ⟨by simp [fanAct, hset, hon, hoff],
                  by simp [fanAct, hset, hon, hoff]⟩
        · by_cases ht : d = some "thermostat"
          · subst ht
            rcases thermoAct_cases h a p with h1 | h1 | h1 | ⟨v, hv1, hv2, h1⟩
            · rw [handleOne_thermoDev h a p c hstat _ h1]
              exact Or.inl ⟨rfl, by simp⟩
            · rw [handleOne_thermoDev h a p c hstat _ h1]
              exact Or.inl ⟨rfl, by simp⟩
            · rw [handleOne_thermoDev h a p c hstat _ h1]
              exact Or.inl ⟨rfl, by simp⟩
            · rw [handleOne_thermoDev h a p c hstat _ h1]
              exact Or.inr (Or.inr (Or.inr ⟨v, _, rfl, isErrOut_thermoMsg _, hv1, hv2⟩))
          · rw [handleOne_otherDev h _ (by simpa using hmal) hstat hl hf ht]
            exact Or.inl ⟨rfl, by simp⟩

/-! ### Decimal rendering and parsing -/

lemma digitChar_isDigit (n : Nat) (h : n < 10) : (digitChar n).isDigit = true := by
  interval_cases n <;> rfl

lemma digitChar_val (n : Nat) (h : n < 10) : (digitChar n).toNat - 48 = n := by
  interval_cases n <;> rfl

lemma parseVal_append_digit (l : List Char) (c : Char) :
    parseVal (l ++ [c]) = 10 * parseVal l + (c.toNat - 48) := by
  unfold parseVal
  rw [List.foldl_append]
  rfl

lemma natReprAux_spec : ∀ fuel n, n ≤ fuel →
    (natReprAux (fuel + 1) n ≠ []
      ∧ (∀ c ∈ natReprAux (fuel + 1) n, c.isDigit = true)
      ∧ parseVal (natReprAux (fuel + 1) n) = n) := by
  intro fuel
  induction fuel with
  | zero =>
    intro n hn
    interval_cases n
    exact ⟨by decide, by decide, by decide⟩
  | succ f ih =>
    intro n hn
    by_cases h10 : n < 10
    · refine ⟨by simp [natReprAux, h10], ?_, ?_⟩
      · intro c hc
        simp [natReprAux, h10] at hc
        simp [hc, digitChar_isDigit n h10]
      · simp [natReprAux, h10, parseVal]
        have := digitChar_val n h10
        omega
    · have hdiv : n / 10 ≤ f := by
        have : n / 10 < n := Nat.div_lt_self (by omega) (by omega)
        omega
      obtain ⟨hne, hdig, hval⟩ := ih (n / 10) hdiv
      have hstep : natReprAux (f + 1 + 1) n
          = natReprAux (f + 1) (n / 10) ++ [digitChar (n % 10)] := by
        simp [natReprAux, h10]
      refine ⟨by simp [hstep], ?_, ?_⟩
      · intro c hc
        rw [hstep] at hc
        rcases List.mem_append.mp hc with hc | hc
        · exact hdig c hc
        · simp at hc
          simp [hc, digitChar_isDigit _ (Nat.mod_lt n (by omega))]
      · rw [hstep, parseVal_append_digit, hval,
          digitChar_val _ (Nat.mod_lt n (by omega))]
        omega

lemma natRepr_spec (n : Nat) :
    natRepr n ≠ [] ∧ (∀ c ∈ natRepr n, c.isDigit = true) ∧ parseVal (natRepr n) = n :=
  natReprAux_spec n n le_rfl

lemma pyIsDigit_pyStr (t : Int) (ht : 0 ≤ t) : pyIsDigit (pyStr t) = true := by
  obtain ⟨hne, hdig, _⟩ := natRepr_spec t.toNat
  unfold pyStr
  rw [if_neg (not_lt.mpr ht)]
  unfold pyIsDigit
  simp only [String.data]
  have hie : (natRepr t.toNat).isEmpty = false := by
    cases hval : natRepr t.toNat with
    | nil => exact absurd hval hne
    | cons x xs => rfl
  rw [hie]
  simpa [List.all_eq_true] using hdig

lemma pyInt_pyStr (t : Int) (ht : 0 ≤ t) : pyInt (pyStr t) = t := by
  obtain ⟨_, _, hval⟩ := natRepr_spec t.toNat
  unfold pyStr
  rw [if_neg (not_lt.mpr ht)]
  unfold pyInt
  simp only [String.data]
  rw [hval]
  exact Int.toNat_of_nonneg ht

lemma pyIsDigit_pyStr_neg (t : Int) (ht : t < 0) : pyIsDigit (pyStr t) = false := by
  unfold pyStr
  rw [if_pos ht]
  unfold pyIsDigit
  simp only [String.data, List.all_cons]
  rw [show ('-').isDigit = false from rfl]
  simp

@[simp]
lemma isErrOut_thermoMsg2 (x y : String) :
    isErrOut ("Thermostat set to " ++ x ++ y) = false := rfl

/-- C2: a thermostat `set` succeeds — storing the parsed integer and
turning the thermostat on — iff the raw parameter is an all-digit string
whose value lies in `[18, 30]`; a missing or non-digit parameter is an
invalid-parameter failure, an in-digit but out-of-range one an
out-of-range failure; for every integer `t`, `str(t)` succeeds iff
`18 ≤ t ≤ 30`. -/
theorem claim_C2_thermostat_range (h : SmartHome) (t : Int) (s : String) :
    (handleOne h (thermoSetReq (some (pyStr t)))
        = ({h with thermostat := ⟨t, true⟩},
           ["Thermostat set to " ++ toString t ++ "°C"])
      ↔ (18 ≤ t ∧ t ≤ 30))
    ∧ handleOne h (thermoSetReq none) = (h, ["Error: Invalid temperature value."])
    ∧ (pyIsDigit s = false →
        handleOne h (thermoSetReq (some s)) = (h, ["Error: Invalid temperature value."]))
    ∧ (pyIsDigit s = true → ¬(18 ≤ pyInt s ∧ pyInt s ≤ 30) →
        handleOne h (thermoSetReq (some s)) = (h, ["Error: Temperature Out Of Range."]))
    ∧ (pyIsDigit s = true → 18 ≤ pyInt s → pyInt s ≤ 30 →
        handleOne h (thermoSetReq (some s))
          = ({h with thermostat := ⟨pyInt s, true⟩},
             ["Thermostat set to " ++ toString (pyInt s) ++ "°C"])) := by
  refine ⟨?_, handleOne_thermoSet_none h, ?_, ?_, ?_⟩
  · constructor
    · intro heq
      by_contra hr
      rw [handleOne_thermoSet] at heq
      by_cases ht0 : 0 ≤ t
      · rw [pyIsDigit_pyStr t ht0] at heq
        simp only [if_true, pyInt_pyStr t ht0] at heq
        rw [if_neg hr] at heq
        have h2 := congrArg Prod.snd heq
        simp only [List.cons.injEq] at h2
        have h3 := congrArg isErrOut h2.1
        rw [isErrOut_thermoMsg2] at h3
        exact absurd h3 (by decide)
      · rw [pyIsDigit_pyStr_neg t (by omega)] at heq
        simp only [Bool.false_eq_true, if_false] at heq
        have h2 := congrArg Prod.snd heq
        simp only [List.cons.injEq] at h2
        have h3 := congrArg isErrOut h2.1
        rw [isErrOut_thermoMsg2] at h3
        exact absurd h3 (by decide)
    · intro hr
      have ht0 : 0 ≤ t := by omega
      rw [handleOne_thermoSet]
      rw [pyIsDigit_pyStr t ht0]
      simp only [if_true, pyInt_pyStr t ht0]
      rw [if_pos hr]
  · intro hd
    rw [handleOne_thermoSet]
    simp [hd]
  · intro hd hr
    rw [handleOne_thermoSet]
    simp [hd, hr]
  · intro hd h18 h30
    rw [handleOne_thermoSet]
    simp [hd, h18, h30]

/-- Each request appends at most one response. -/
lemma handleOne_len (h : SmartHome) (r : Req) : (handleOne h r).2.length ≤ 1 := by
  rcases handleOne_cases h r with ⟨_, h1⟩ | ⟨b, m, heq, _⟩ | ⟨sp, m, heq, _⟩
    | ⟨v, m, heq, _, _, _⟩
  · exact h1
  · rw [heq]; exact le_refl 1
  · rw [heq]; exact le_refl 1
  · rw [heq]; exact le_refl 1

/-- A request that is not successful leaves the registry unchanged. -/
lemma not_success_unchanged (h : SmartHome) (r : Req)
    (hs : isSuccessAt h r = false) : (handleOne h r).1 = h := by
  rcases handleOne_cases h r with ⟨h1, _⟩ | ⟨b, m, heq, hm⟩ | ⟨sp, m, heq, hm⟩
    | ⟨v, m, heq, hm, _, _⟩
  · exact h1
  all_goals
    exfalso
    unfold isSuccessAt at hs
    rw [heq] at hs
    simp [hm] at hs

/-- The request body never lets an exception escape: every branch returns
an `ok` result (the fan `KeyError` is caught by the inner handler, the
thermostat `float` call sits behind the `isdigit` guard). -/
lemma handleOneBody_ok (h : SmartHome) (r : Req) :
    ∃ res, handleOneBody h r = .ok res := by
  obtain ⟨a, d, p, c⟩ := r
  unfold handleOneBody
  dsimp only
  split_ifs
  · exact ⟨_, rfl⟩
  · exact ⟨_, rfl⟩
  · exact ⟨_, rfl⟩
  · exact ⟨_, rfl⟩
  · rcases thermoAct_cases h a p with h1 | h1 | h1 | ⟨v, _, _, h1⟩ <;> exact ⟨_, h1⟩
  · exact ⟨_, rfl⟩

/-- The thermostat range invariant is preserved by one request. -/
lemma thermo_inv_step (h : SmartHome) (r : Req)
    (hinv : 18 ≤ h.thermostat.temperature ∧ h.thermostat.temperature ≤ 30) :
    18 ≤ (handleOne h r).1.thermostat.temperature
      ∧ (handleOne h r).1.thermostat.temperature ≤ 30 := by
  rcases handleOne_cases h r with ⟨h1, _⟩ | ⟨b, m, heq, _⟩ | ⟨sp, m, heq, _⟩
    | ⟨v, m, heq, _, hv1, hv2⟩
  · rw [h1]; exact hinv
  · rw [heq]; exact hinv
  · rw [heq]; exact hinv
  · rw [heq]; exact ⟨hv1, hv2⟩

/-- The thermostat range invariant is preserved by a whole batch. -/
lemma thermo_inv_fold : ∀ (rs : List Req) (h : SmartHome),
    (18 ≤ h.thermostat.temperature ∧ h.thermostat.temperature ≤ 30) →
    18 ≤ (handle_command h rs).1.thermostat.temperature
      ∧ (handle_command h rs).1.thermostat.temperature ≤ 30 := by
  intro rs
  induction rs with
  | nil => intro h hinv; exact hinv
  | cons r rest ih =>
    intro h hinv
    exact ih (handleOne h r).1 (thermo_inv_step h r hinv)

/-! ### Claim theorems -/

/-- C1 (counterexample): a `set` action on the light is a device/action
combination outside the handled table, and dispatching it produces zero
outcome messages — not one — refuting "exactly one outcome per request"
for such requests. -/
theorem claim_C1_counterexample :
    handle_command SmartHome.init [⟨some "set", some "light", some "on", none⟩]
        = (SmartHome.init, [])
      ∧ (handle_command SmartHome.init [⟨some "set", some "light", some "on", none⟩]).2.length
        ≠ [(⟨some "set", some "light", some "on", none⟩ : Req)].length := by
  exact ⟨by decide, by decide⟩

/-- C1 (amended): dispatching a batch produces the per-request response
lists concatenated in request order, with exactly one (possibly empty)
response list per request and each list holding at most one message;
unlisted device/action combinations contribute the empty list. -/
theorem claim_C1_order (h : SmartHome) (rs : List Req) (r : Req) :
    (handle_command h rs).2 = (perRequest h rs).flatten
    ∧ (perRequest h rs).length = rs.length
    ∧ (handleOne h r).2.length ≤ 1 := by
  refine ⟨?_, ?_, handleOne_len h r⟩
  · induction rs generalizing h with
    | nil => rfl
    | cons r' rest ih =>
      simp only [handle_command, perRequest, List.flatten]
      rw [← ih (handleOne h r').1]
  · induction rs generalizing h with
    | nil => rfl
    | cons r' rest ih =>
      simp only [perRequest, List.length_cons]
      rw [ih (handleOne h r').1]

/-- C3: a batch is best-effort — the final registry state is exactly the
state obtained by applying only the successful requests in order (failing
requests neither roll back earlier effects nor change the state), and the
tail of a batch is always processed from whatever state the head left. -/
theorem claim_C3_best_effort (h : SmartHome) (rs : List Req) (r : Req) :
    (handle_command h rs).1 = applySuccessful h rs
    ∧ handle_command h (r :: rs)
        = ((handle_command (handleOne h r).1 rs).1,
           (handleOne h r).2 ++ (handle_command (handleOne h r).1 rs).2) := by
  refine ⟨?_, rfl⟩
  induction rs generalizing h with
  | nil => rfl
  | cons r' rest ih =>
    show (handle_command (handleOne h r').1 rest).1 = _
    by_cases hs : isSuccessAt h r' = true
    · unfold applySuccessful
      rw [if_pos hs]
      exact ih (handleOne h r').1
    · unfold applySuccessful
      rw [if_neg hs, not_success_unchanged h r' (by simpa using hs)]
      exact ih h

/-- C4: dispatch is total — the body of each request's `try` block always
returns normally (every raise site is locally handled), so the handler
returns its result unchanged, and a batch always yields a response list
(of at most one message per request). -/
theorem claim_C4_total (h : SmartHome) (r : Req) (rs : List Req) :
    handleOneBody h r = Except.ok (handleOne h r)
    ∧ (handle_command h rs).2.length ≤ rs.length := by
  constructor
  · obtain ⟨res, hres⟩ := handleOneBody_ok h r
    rw [hres]
    unfold handleOne
    rw [hres]
  · induction rs generalizing h with
    | nil => exact Nat.le_refl 0
    | cons r' rest ih =>
      show ((handleOne h r').2 ++ (handle_command (handleOne h r').1 rest).2).length ≤ _
      rw [List.length_append]
      have h1 := handleOne_len h r'
      have h2 := ih (handleOne h r').1
      simp only [List.length_cons]
      omega

/-- C5 (counterexample): an unrecognized command (the translator's
`{"action": "unknown", "command": <text>}` record) produces the fixed
message `Error: Could not understand the command.`, which does not contain
— hence does not echo — the original input text. -/
theorem claim_C5_counterexample :
    handleOne SmartHome.init ⟨some "unknown", none, none, some "turn on the oven"⟩
        = (SmartHome.init, ["Error: Could not understand the command."])
      ∧ containsSub ("turn on the oven".data)
          ("Error: Could not understand the command.".data) = false := by
  exact ⟨by decide, by decide⟩

/-- C5 (amended): every unrecognized request produces exactly one failure
outcome with the fixed message `Error: Could not understand the command.`
(not echoing the original text); it is never dropped and never mutates any
device. -/
theorem claim_C5_unrecognized (h : SmartHome) (txt : String) :
    handleOne h ⟨some "unknown", none, none, some txt⟩
      = (h, ["Error: Could not understand the command."]) :=
  handleOne_malformed h _ rfl (by simp)

/-- C6: fan `set` matches the raw parameter case-insensitively against
exactly the four canonical speed names; `"HIGH"` and `"high"` both set the
speed to High, `"fast"` fails with an invalid-parameter error leaving the
fan unchanged, and the name table accepts nothing else. -/
theorem claim_C6_fan_domain (h : SmartHome) (p : String) (sp : FanSpeed) :
    handleOne h (fanSetReq (some "HIGH"))
        = ({h with fan := ⟨.high⟩}, ["Fan speed set to high"])
    ∧ handleOne h (fanSetReq (some "high"))
        = ({h with fan := ⟨.high⟩}, ["Fan speed set to high"])
    ∧ handleOne h (fanSetReq (some "fast"))
        = (h, ["Error: Invalid fan speed 'fast'. Valid speeds are: OFF, LOW, MEDIUM, HIGH"])
    ∧ ((fanSpeedOfName p).isSome = true
        ↔ (p = "OFF" ∨ p = "LOW" ∨ p = "MEDIUM" ∨ p = "HIGH"))
    ∧ (fanSpeedOfName (pyUpper (pyLower p)) = some sp →
        handleOne h (fanSetReq (some p))
          = ({h with fan := ⟨sp⟩}, ["Fan speed set to " ++ pyLower p]))
    ∧ (fanSpeedOfName (pyUpper (pyLower p)) = none →
        handleOne h (fanSetReq (some p))
          = (h, ["Error: Invalid fan speed '" ++ pyLower p
              ++ "'. Valid speeds are: OFF, LOW, MEDIUM, HIGH"])) := by
  refine ⟨rfl, rfl, rfl, ?_, ?_, ?_⟩
  · constructor
    · intro hs
      unfold fanSpeedOfName at hs
      split at hs
      · exact Or.inl rfl
      · exact Or.inr (Or.inl rfl)
      · exact Or.inr (Or.inr (Or.inl rfl))
      · exact Or.inr (Or.inr (Or.inr rfl))
      · exact absurd hs (by decide)
    · rintro (rfl | rfl | rfl | rfl) <;> rfl
  · intro hm
    rw [handleOne_fanSet]
    simp only [Option.getD]
    rw [hm]
  · intro hm
    rw [handleOne_fanSet]
    simp only [Option.getD]
    rw [hm]

/-- C7: a `get_status` request never mutates and snapshots the registry at
its position in the batch: between turning the light on and off the status
line reports the light as ON. -/
theorem claim_C7_status_snapshot (h : SmartHome) (r : Req) :
    (r.action = some "get_status" → handleOne h r = (h, [statusText h]))
    ∧ handle_command SmartHome.init
        [⟨some "turn_on", some "light", none, none⟩,
         ⟨some "get_status", none, none, none⟩,
         ⟨some "turn_off", some "light", none, none⟩]
      = (SmartHome.init,
         ["Light is now ON",
          "light: ON\nfan: off\nthermostat: 22°C (OFF)",
          "Light is now OFF"]) := by
  exact ⟨handleOne_getStatus h r, by decide⟩

/-- C8: in every state reachable from the initial registry by dispatching
any batch, the thermostat temperature lies in `[18, 30]` (it starts at the
default 22 and is only overwritten by a validated in-range `set`). -/
theorem claim_C8_thermo_invariant (rs : List Req) :
    18 ≤ (handle_command SmartHome.init rs).1.thermostat.temperature
    ∧ (handle_command SmartHome.init rs).1.thermostat.temperature ≤ 30 :=
  thermo_inv_fold rs SmartHome.init (by decide)

/-- C9: per-request atomicity on error — whenever a request's response is
a failure message, the registry after that request equals the registry
before it. -/
theorem claim_C9_atomic_error (h : SmartHome) (r : Req) (m : String) :
    m ∈ (handleOne h r).2 → isErrOut m = true → (handleOne h r).1 = h := by
  intro hm herr
  rcases handleOne_cases h r with ⟨h1, _⟩ | ⟨b, m', heq, hm'⟩ | ⟨sp, m', heq, hm'⟩
    | ⟨v, m', heq, hm', _, _⟩
  · exact h1
  all_goals
    exfalso
    rw [heq] at hm
    simp only [List.mem_singleton] at hm
    subst hm
    rw [herr] at hm'
    exact absurd hm' (by decide)

/-- C10: frame property — a request naming one device mutates at most that
device; the other two devices' fields are untouched. -/
theorem claim_C10_frame (h : SmartHome) (r : Req) :
    (r.device = some "light" →
      (handleOne h r).1.fan = h.fan ∧ (handleOne h r).1.thermostat = h.thermostat)
    ∧ (r.device = some "fan" →
      (handleOne h r).1.light = h.light ∧ (handleOne h r).1.thermostat = h.thermostat)
    ∧ (r.device = some "thermostat" →
      (handleOne h r).1.light = h.light ∧ (handleOne h r).1.fan = h.fan) := by
  obtain ⟨a, d, p, c⟩ := r
  by_cases hstat : a = some "get_status"
  · rw [handleOne_getStatus h _ hstat]
    exact ⟨fun _ => ⟨rfl, rfl⟩, fun _ => ⟨rfl, rfl⟩, fun _ => ⟨rfl, rfl⟩⟩
  · refine ⟨?_, ?_, ?_⟩
    · intro hd
      simp only at hd
      subst hd
      rw [handleOne_lightDev h a p c hstat]
      unfold lightAct
      split_ifs <;> exact ⟨rfl, rfl⟩
    · intro hd
      simp only at hd
      subst hd
      rw [handleOne_fanDev h a p c hstat]
      simp only [fanAct]
      split_ifs
      · cases fanSpeedGetItem (pyUpper (pyLower (p.getD ""))) <;> exact ⟨rfl, rfl⟩
      · exact ⟨rfl, rfl⟩
      · exact ⟨rfl, rfl⟩
      · exact ⟨rfl, rfl⟩
    · intro hd
      simp only at hd
      subst hd
      rcases thermoAct_cases h a p with h1 | h1 | h1 | ⟨v, _, _, h1⟩ <;>
        rw [handleOne_thermoDev h a p c hstat _ h1] <;> exact ⟨rfl, rfl⟩

/-- Witness for C2: `"17"` is rejected as out of range and `"24"` is
accepted, concretely. -/
theorem claim_C2_witness :
    handleOne SmartHome.init (thermoSetReq (some "17"))
        = (SmartHome.init, ["Error: Temperature Out Of Range."])
      ∧ handleOne SmartHome.init (thermoSetReq (some "abc"))
        = (SmartHome.init, ["Error: Invalid temperature value."])
      ∧ handleOne SmartHome.init (thermoSetReq (some "24"))
        = ({SmartHome.init with thermostat := ⟨24, true⟩}, ["Thermostat set to 24°C"]) := by
  refine ⟨(claim_C2_thermostat_range SmartHome.init 0 "17").2.2.2.1 (by decide) (by decide),
    (claim_C2_thermostat_range SmartHome.init 0 "abc").2.2.1 (by decide), ?_⟩
  exact (claim_C2_thermostat_range SmartHome.init 0 "24").2.2.2.2 (by decide) (by decide) (by decide)

/-- Witness for C6: `"Low"` (mixed case) is accepted and sets the fan to
Low. -/
theorem claim_C6_witness :
    handleOne SmartHome.init (fanSetReq (some "Low"))
      = ({SmartHome.init with fan := ⟨.low⟩}, ["Fan speed set to low"]) :=
  (claim_C6_fan_domain SmartHome.init "Low" .low).2.2.2.2.1 (by decide)

/-- Witness for C7: a lone `get_status` request leaves the registry
unchanged and reports its snapshot. -/
theorem claim_C7_witness :
    handleOne SmartHome.init ⟨some "get_status", none, none, none⟩
      = (SmartHome.init, [statusText SmartHome.init]) :=
  (claim_C7_status_snapshot SmartHome.init ⟨some "get_status", none, none, none⟩).1 rfl

/-- Witness for C9: the failing fan request `set fast` leaves the registry
untouched. -/
theorem claim_C9_witness :
    (handleOne SmartHome.init (fanSetReq (some "fast"))).1 = SmartHome.init :=
  claim_C9_atomic_error SmartHome.init (fanSetReq (some "fast"))
    "Error: Invalid fan speed 'fast'. Valid speeds are: OFF, LOW, MEDIUM, HIGH"
    (by decide) (by decide)

/-- Witness for C10: turning the light on leaves the fan and thermostat
untouched. -/
theorem claim_C10_witness :
    (handleOne SmartHome.init ⟨some "turn_on", some "light", none, none⟩).1.fan
        = SmartHome.init.fan
      ∧ (handleOne SmartHome.init ⟨some "turn_on", some "light", none, none⟩).1.thermostat
        = SmartHome.init.thermostat :=
  (claim_C10_frame SmartHome.init ⟨some "turn_on", some "light", none, none⟩).1 rfl

example : handleOne SmartHome.init (thermoSetReq (some "24"))
    = ({SmartHome.init with thermostat := ⟨24, true⟩}, ["Thermostat set to 24°C"]) := by decide

example : handleOne SmartHome.init (fanSetReq (some "HIGH"))
    = ({SmartHome.init with fan := ⟨.high⟩}, ["Fan speed set to high"]) := by decide

example : handle_command SmartHome.init [⟨some "set", some "light", some "on", none⟩]
    = (SmartHome.init, []) := by decide

example : statusText SmartHome.init = "light: OFF\nfan: off\nthermostat: 22°C (OFF)" := by decide

example : pyStr 24 = "24" := by decide

example : pyStr (-5) = "-5" := by decide

end SmartHomeSpec
